import Mathlib

/-!
Shallow embedding of the `GeoLocation` module of digidem/react-native-geolocation.

The module wraps the platform geolocation driver in a small session state
machine: a permission gate, an initial low-accuracy one-shot poll, a
continuous high-frequency watch that escalates accuracy, and — once a fix at
or below the accuracy threshold arrives — a movement-gated watch.  Updates are
tagged with a status (SEARCHING / LOW_ACCURACY / HIGH_ACCURACY) before being
delivered to the caller.

The embedding has two layers:

* session-level pure functions mirroring the source functions line by line
  (`requestLocationPermission`, `startObserving`, `stopObserving`, the
  `onUpdate` status derivation, the watch callbacks, the GPS-state listener);
  effects are returned as explicit `Action` lists;
* a whole-system small-step semantics `step : SysState → Event → SysState ×
  List CallbackOut` that also tracks the platform side (active watch
  subscriptions, pending one-shot `getCurrentPosition` callbacks, the
  GPS-state listener attachment), interpreting the session functions' action
  lists.  Asynchronous platform callbacks are events, guarded so that a
  cancelled subscription can no longer fire, while a pending one-shot poll —
  which the platform API offers no way to cancel — can.
-/

namespace Geolocation

/-- MAX_ACCURACY constant: keep polling GPS until we get accuracy below this
(meters). -/
def MAX_ACCURACY : ℚ := 10

/-- MIN_DISTANCE constant: minimum distance moved before location updates
(meters). -/
def MIN_DISTANCE : ℚ := 10

namespace errorCodes

/-- Error code constant from the source `errorCodes` object. -/
def PERMISSION_DENIED : Nat := 1

/-- Error code constant from the source `errorCodes` object. -/
def POSITION_UNAVAILABLE : Nat := 2

/-- Error code constant from the source `errorCodes` object. -/
def TIMED_OUT : Nat := 3

/-- Error code constant from the source `errorCodes` object. -/
def UNKNOWN : Nat := 4

end errorCodes

namespace errorMessages

/-- Error message string from the source `errorMessages` object. -/
def PERMISSION_DENIED : String := "Location permission denied by user"

/-- Error message string from the source `errorMessages` object. -/
def POSITION_UNAVAILABLE : String := "Location services are turned off"

/-- Error message string from the source `errorMessages` object (the typo is
in the source). -/
def TIMED_OUT : String := "Location serach timed out"

/-- Error message string from the source `errorMessages` object. -/
def UNKNOWN : String := "Unknown error"

end errorMessages

namespace statusCodes

/-- Status code constant from the source `statusCodes` object. -/
def SEARCHING : Nat := 1

/-- Status code constant from the source `statusCodes` object. -/
def LOW_ACCURACY : Nat := 2

/-- Status code constant from the source `statusCodes` object. -/
def HIGH_ACCURACY : Nat := 3

end statusCodes

namespace GPSState

/-- Status constant of the `react-native-gps-state` collaborator. -/
def NOT_DETERMINED : Nat := 0

/-- Status constant of the `react-native-gps-state` collaborator: reported
when the user turns off location. -/
def RESTRICTED : Nat := 1

/-- Status constant of the `react-native-gps-state` collaborator. -/
def DENIED : Nat := 2

/-- Status constant of the `react-native-gps-state` collaborator: reported
when location is (re-)enabled. -/
def AUTHORIZED : Nat := 3

end GPSState

/-- Geographic coordinates of a platform fix, with the accuracy radius in
meters (the only field the module reads). -/
structure Coords where
  latitude : ℚ
  longitude : ℚ
  accuracy : ℚ
deriving DecidableEq, Repr

/-- A raw position value as handed to `onUpdate`.  JavaScript is duck-typed:
the `coords` field may be absent, which we model with an `Option`. -/
structure RawPosition where
  coords : Option Coords
deriving DecidableEq, Repr

/-- The update object delivered to the caller through `onLocation`: the
position enriched with the `status` field `onUpdate` assigns. -/
structure DeliveredUpdate where
  coords : Option Coords
  status : Nat
deriving DecidableEq, Repr

/-- The `PositionError`-like object built by `createError`: an error with a
`message` and a numeric `code` field. -/
structure PositionError where
  message : String
  code : Nat
deriving DecidableEq, Repr

/-- Mirrors `createError (msg, errorCode)`: builds an error carrying a
message and a code. -/
def createError (msg : String) (errorCode : Nat) : PositionError :=
  { message := msg, code := errorCode }

/-- Mirrors the inner `onUpdate (position)` of `startObserving`: a falsy
argument is replaced by a bare `{ status: SEARCHING }` object; otherwise
`position.coords.accuracy` is read unconditionally and the status is set to
LOW_ACCURACY when it exceeds MAX_ACCURACY, HIGH_ACCURACY otherwise; the
result is passed to `onLocation`.  Reading `coords.accuracy` of a truthy
position without `coords` is a TypeError, modelled as `none` (no delivery,
the callback faults). -/
def onUpdateDeliver : Option RawPosition → Option DeliveredUpdate
  | none => some { coords := none, status := statusCodes.SEARCHING }
  | some p =>
    match p.coords with
    | none => none
    | some c =>
      if c.accuracy > MAX_ACCURACY then
        some { coords := some c, status := statusCodes.LOW_ACCURACY }
      else
        some { coords := some c, status := statusCodes.HIGH_ACCURACY }

/-- The synthetic update emitted by `onUpdate()` when called with no
argument: no coordinates, status SEARCHING. -/
def searchingUpdate : DeliveredUpdate :=
  { coords := none, status := statusCodes.SEARCHING }

/-- Status derivation for a platform-supplied fix (which always carries
coordinates): the position tagged LOW_ACCURACY or HIGH_ACCURACY by
`onUpdate`. -/
def deliverFix (c : Coords) : DeliveredUpdate :=
  if c.accuracy > MAX_ACCURACY then
    { coords := some c, status := statusCodes.LOW_ACCURACY }
  else
    { coords := some c, status := statusCodes.HIGH_ACCURACY }

/-- The scope-to-result mapping resolved by
`PermissionsAndroid.requestMultiple`: one result string per requested
scope. -/
structure GrantMap where
  fineStatus : String
  coarseStatus : String
deriving DecidableEq, Repr

/-- Outcome of the platform permission request: either the promise resolves
with a grant map, or it rejects with a platform error message. -/
inductive PermRequestResult where
  | resolved (granted : GrantMap)
  | rejected (message : String)
deriving DecidableEq, Repr

/-- Mirrors `requestLocationPermission ()`: a platform exception is rethrown
as an UNKNOWN error carrying the platform message; otherwise, if the
coarse-location scope result is not the string "granted" a
PERMISSION_DENIED error is thrown; otherwise the function returns normally.
The fine-location result is never inspected. -/
def requestLocationPermission : PermRequestResult → Except PositionError Unit
  | .rejected msg => .error (createError msg errorCodes.UNKNOWN)
  | .resolved granted =>
    if granted.coarseStatus ≠ "granted" then
      .error (createError errorMessages.PERMISSION_DENIED
        errorCodes.PERMISSION_DENIED)
    else
      .ok ()

/-- The mutable fields of a `GeoLocation` instance: the `started` flag set in
the constructor and the `watchId` property (absent until first assigned, so
an `Option`). -/
structure SessionState where
  started : Bool
  watchId : Option Nat
deriving DecidableEq, Repr

/-- Mirrors `new GeoLocation()`: `started` is false and `watchId` is not yet
assigned. -/
def newGeoLocation : SessionState :=
  { started := false, watchId := none }

/-- The effects a session function performs, in order: invocations of the
caller's callbacks and calls into the platform collaborators. -/
inductive Action where
  | callOnError (e : PositionError)
  | callOnLocation (u : DeliveredUpdate)
  | addGPSListener
  | getInitialPositionCall
  | watchUntilAccurateCall (id : Nat)
  | clearWatchCall (id : Nat)
  | watchForMovementCall (id : Nat)
  | removeListenerCall
deriving DecidableEq, Repr

/-- Mirrors `startObserving (onLocation, onError)` up to its synchronous
return: throws (the `Except.error` channel, a programming error distinct
from a `PositionError`) when `started` is already set; on a permission-gate
failure, calls `onError` and returns with the state untouched (in
particular `started` is still false); on success sets `started`, emits the
synthetic SEARCHING update, attaches the GPS-state listener, fires the
initial low-accuracy one-shot poll, and starts the high-frequency
accuracy-escalation watch, storing its platform handle (`freshId`, chosen by
the platform) in `watchId`. -/
def startObserving (st : SessionState) (perm : PermRequestResult)
    (freshId : Nat) : Except String (SessionState × List Action) :=
  if st.started then
    .error "Called startObserving more than once"
  else
    match requestLocationPermission perm with
    | .error e => .ok (st, [Action.callOnError e])
    | .ok _ =>
      .ok ({ started := true, watchId := some freshId },
        [Action.callOnLocation searchingUpdate,
         Action.addGPSListener,
         Action.getInitialPositionCall,
         Action.watchUntilAccurateCall freshId])

/-- Mirrors `stopObserving ()`: when `watchId` was never assigned the whole
body is skipped; otherwise the stored watch handle is cleared and the
GPS-state listener removed.  Neither branch writes any instance field. -/
def stopObserving (st : SessionState) : SessionState × List Action :=
  match st.watchId with
  | none => (st, [])
  | some i => (st, [Action.clearWatchCall i, Action.removeListenerCall])

/-- Mirrors the success callback passed to `watchPositionUntilAccurate`: when
the fix accuracy is at or below MAX_ACCURACY it clears the stored watch
handle, starts the movement-gated watch and stores its new handle; in every
case it finishes by delivering the status-tagged fix through `onUpdate`. -/
def watchUntilAccurateCallback (st : SessionState) (c : Coords)
    (freshId : Nat) : SessionState × List Action :=
  if c.accuracy ≤ MAX_ACCURACY then
    ({ st with watchId := some freshId },
      (match st.watchId with
       | some old => [Action.clearWatchCall old]
       | none => []) ++
      [Action.watchForMovementCall freshId,
       Action.callOnLocation (deliverFix c)])
  else
    (st, [Action.callOnLocation (deliverFix c)])

/-- Mirrors the GPS-state listener body registered in `startObserving`: on
AUTHORIZED it fires one immediate low-accuracy one-shot poll and re-emits
the SEARCHING update; then, unless the status is RESTRICTED, it returns; on
RESTRICTED it delivers a POSITION_UNAVAILABLE error through `onError`. -/
def gpsStateListener (status : Nat) : List Action :=
  let pre :=
    if status = GPSState.AUTHORIZED then
      [Action.getInitialPositionCall, Action.callOnLocation searchingUpdate]
    else []
  if status ≠ GPSState.RESTRICTED then pre
  else
    pre ++ [Action.callOnError (createError errorMessages.POSITION_UNAVAILABLE
      errorCodes.POSITION_UNAVAILABLE)]

/-- The two kinds of platform watch subscription the module creates. -/
inductive WatchKind where
  | escalating
  | movement
deriving DecidableEq, Repr

/-- Whole-system state: the session instance plus the platform side — the
set of live watch subscriptions (handle and kind), the number of pending
one-shot `getCurrentPosition` callbacks (the platform API offers no cancel
for these), whether the GPS-state listener is attached, and the platform's
next fresh watch handle. -/
structure SysState where
  session : SessionState
  watches : List (Nat × WatchKind)
  pendingInitialPolls : Nat
  listenerAttached : Bool
  nextId : Nat
deriving DecidableEq, Repr

/-- Whether a live escalating (high-frequency, until-accurate) watch
subscription exists on the platform. -/
def SysState.hasEscalating (s : SysState) : Bool :=
  s.watches.any (fun w => decide (w.2 = WatchKind.escalating))

/-- Whether a live movement-gated watch subscription exists on the
platform. -/
def SysState.hasMovement (s : SysState) : Bool :=
  s.watches.any (fun w => decide (w.2 = WatchKind.movement))

/-- Observable callback invocations reaching the caller: `onLocation`,
`onError`, and the synchronous throw of a double `startObserving`. -/
inductive CallbackOut where
  | onLocationCall (u : DeliveredUpdate)
  | onErrorCall (e : PositionError)
  | startThrew (msg : String)
deriving DecidableEq, Repr

/-- Whether an observable callback is a delivery on the `onLocation` or
`onError` channel (a synchronous throw is not a delivery). -/
def isDelivery : CallbackOut → Bool
  | .onLocationCall _ => true
  | .onErrorCall _ => true
  | .startThrew _ => false

/-- Interprets one `Action` against the platform state, producing the
observable callbacks it causes.  `clearWatchCall` removes the watch with the
given handle, after which that subscription can no longer fire. -/
def applyAction (s : SysState) (a : Action) : SysState × List CallbackOut :=
  match a with
  | .callOnError e => (s, [CallbackOut.onErrorCall e])
  | .callOnLocation u => (s, [CallbackOut.onLocationCall u])
  | .addGPSListener => ({ s with listenerAttached := true }, [])
  | .getInitialPositionCall =>
    ({ s with pendingInitialPolls := s.pendingInitialPolls + 1 }, [])
  | .watchUntilAccurateCall i =>
    ({ s with watches := s.watches ++ [(i, WatchKind.escalating)] }, [])
  | .clearWatchCall i =>
    ({ s with watches := s.watches.filter (fun w => w.1 != i) }, [])
  | .watchForMovementCall i =>
    ({ s with watches := s.watches ++ [(i, WatchKind.movement)] }, [])
  | .removeListenerCall => ({ s with listenerAttached := false }, [])

/-- Interprets a list of actions left to right, concatenating the observable
callbacks. -/
def applyActions (s : SysState) (acts : List Action) :
    SysState × List CallbackOut :=
  acts.foldl
    (fun p a =>
      let q := applyAction p.1 a
      (q.1, p.2 ++ q.2))
    (s, [])

/-- System events: the two caller-initiated calls and the asynchronous
platform completions (a fix from the escalating watch, a fix from the
movement-gated watch, a resolution or an error of a pending one-shot poll,
an error from the live watch, and a GPS-state signal). -/
inductive Event where
  | callStart (perm : PermRequestResult)
  | escalateFix (c : Coords)
  | movementFix (c : Coords)
  | initialPollFix (p : Option RawPosition)
  | initialPollFailure (e : PositionError)
  | watchFailure (e : PositionError)
  | gpsSignal (status : Nat)
  | callStop
deriving DecidableEq, Repr

/-- Whether an event is the completion of a pending one-shot
`getCurrentPosition` poll (the only asynchronous completion `stopObserving`
cannot cancel). -/
def isInitialPollEvent : Event → Bool
  | .initialPollFix _ => true
  | .initialPollFailure _ => true
  | _ => false

/-- One whole-system step.  Platform callbacks are guarded by the liveness
of what they belong to: a watch callback fires only while its subscription
is live, a one-shot callback only while a poll is pending, the GPS-state
listener only while attached.  Fresh watch handles come from `nextId`. -/
def step (s : SysState) : Event → SysState × List CallbackOut
  | .callStart perm =>
    match startObserving s.session perm s.nextId with
    | .error msg => (s, [CallbackOut.startThrew msg])
    | .ok r =>
      applyActions { s with session := r.1, nextId := s.nextId + 1 } r.2
  | .escalateFix c =>
    if s.hasEscalating then
      let r := watchUntilAccurateCallback s.session c s.nextId
      applyActions { s with session := r.1, nextId := s.nextId + 1 } r.2
    else (s, [])
  | .movementFix c =>
    if s.hasMovement then (s, [CallbackOut.onLocationCall (deliverFix c)])
    else (s, [])
  | .initialPollFix p =>
    if s.pendingInitialPolls > 0 then
      let s1 := { s with pendingInitialPolls := s.pendingInitialPolls - 1 }
      match onUpdateDeliver p with
      | some u => (s1, [CallbackOut.onLocationCall u])
      | none => (s1, [])
    else (s, [])
  | .initialPollFailure e =>
    if s.pendingInitialPolls > 0 then
      ({ s with pendingInitialPolls := s.pendingInitialPolls - 1 },
        [CallbackOut.onErrorCall e])
    else (s, [])
  | .watchFailure e =>
    if s.watches.isEmpty then (s, []) else (s, [CallbackOut.onErrorCall e])
  | .gpsSignal status =>
    if s.listenerAttached then applyActions s (gpsStateListener status)
    else (s, [])
  | .callStop =>
    let r := stopObserving s.session
    applyActions { s with session := r.1 } r.2

/-- The system before the caller does anything: a fresh `GeoLocation`
instance and an idle platform. -/
def initSys : SysState :=
  { session := newGeoLocation
    watches := []
    pendingInitialPolls := 0
    listenerAttached := false
    nextId := 0 }

/-- Runs a list of events from a state, keeping only the final state. -/
def runEvents (s : SysState) (evts : List Event) : SysState :=
  evts.foldl (fun st e => (step st e).1) s

/-- A convenient resolved permission request granting both scopes. -/
def permGrantedBoth : PermRequestResult :=
  .resolved { fineStatus := "granted", coarseStatus := "granted" }

/-- A resolved permission request denying both scopes. -/
def permDeniedBoth : PermRequestResult :=
  .resolved { fineStatus := "denied", coarseStatus := "denied" }

/-- Watch bookkeeping invariant of reachable system states: the platform
holds no watch, exactly the escalating watch, or exactly the movement-gated
watch, and in the latter two cases the session's `watchId` names that watch
and the session is started. -/
def WatchesOk (s : SysState) : Prop :=
  s.watches = []
  ∨ (∃ i, s.watches = [(i, WatchKind.escalating)]
      ∧ s.session.watchId = some i ∧ s.session.started = true)
  ∨ (∃ i, s.watches = [(i, WatchKind.movement)]
      ∧ s.session.watchId = some i ∧ s.session.started = true)

/-- Invariant of reachable system states: the watch bookkeeping holds, a
started session has an assigned `watchId`, and the GPS-state listener is
only attached while the session is started. -/
def Inv (s : SysState) : Prop :=
  WatchesOk s
  ∧ (s.session.started = true → s.session.watchId ≠ none)
  ∧ (s.listenerAttached = true → s.session.started = true)

/-- Steady-state property: the session is started and no escalating watch is
live (the aggressive mode cannot come back). -/
def Steady (s : SysState) : Prop :=
  s.session.started = true ∧ s.hasEscalating = false

/-- Post-stop property of a started session: no watch lives, the listener is
detached, and the started flag still blocks a restart. -/
def Quiesced (s : SysState) : Prop :=
  s.session.started = true ∧ s.watches = [] ∧ s.listenerAttached = false

/-! Claim theorems. -/

/-- C1: every update delivered by the `onUpdate` status derivation carries a
status: with no position it is SEARCHING (and no fix); with a fix whose
accuracy radius is at most MAX_ACCURACY (10 m) it is HIGH_ACCURACY; with a
radius strictly above the threshold it is LOW_ACCURACY; and any delivered
update has one of the three status values. -/
theorem c1_status_derivation (p : Option RawPosition) (c : Coords) :
    (onUpdateDeliver none
      = some { coords := none, status := statusCodes.SEARCHING })
    ∧ (c.accuracy ≤ MAX_ACCURACY →
        onUpdateDeliver (some { coords := some c })
          = some { coords := some c, status := statusCodes.HIGH_ACCURACY })
    ∧ (MAX_ACCURACY < c.accuracy →
        onUpdateDeliver (some { coords := some c })
          = some { coords := some c, status := statusCodes.LOW_ACCURACY })
    ∧ (∀ u, onUpdateDeliver p = some u →
        u.status = statusCodes.SEARCHING ∨ u.status = statusCodes.LOW_ACCURACY
          ∨ u.status = statusCodes.HIGH_ACCURACY) := by
  refine ⟨rfl, ?_, ?_, ?_⟩
  · intro h
    simp [onUpdateDeliver, not_lt.2 h]
  · intro h
    simp [onUpdateDeliver, h]
  · intro u hu
    match p with
    | none =>
      simp [onUpdateDeliver] at hu
      subst hu
      exact Or.inl rfl
    | some q =>
      match hq : q.coords with
      | none => simp [onUpdateDeliver, hq] at hu
      | some c' =>
        simp only [onUpdateDeliver, hq] at hu
        by_cases hacc : c'.accuracy > MAX_ACCURACY
        · rw [if_pos hacc] at hu
          cases hu
          exact Or.inr (Or.inl rfl)
        · rw [if_neg hacc] at hu
          cases hu
          exact Or.inr (Or.inr rfl)

/-- Witness for C1 at a concrete high-accuracy fix and a concrete
low-accuracy fix. -/
theorem c1_status_derivation_witness :
    onUpdateDeliver (some { coords := some { latitude := 1, longitude := 2, accuracy := 10 } })
      = some { coords := some { latitude := 1, longitude := 2, accuracy := 10 },
               status := statusCodes.HIGH_ACCURACY }
    ∧ onUpdateDeliver (some { coords := some { latitude := 1, longitude := 2, accuracy := 50 } })
      = some { coords := some { latitude := 1, longitude := 2, accuracy := 50 },
               status := statusCodes.LOW_ACCURACY } :=
  ⟨(c1_status_derivation none { latitude := 1, longitude := 2, accuracy := 10 }).2.1
      (by norm_num [MAX_ACCURACY]),
   (c1_status_derivation none { latitude := 1, longitude := 2, accuracy := 50 }).2.2.1
      (by norm_num [MAX_ACCURACY])⟩

/-- C5: the permission gate succeeds exactly when the coarse-location scope
result is the string "granted" (the fine scope is never inspected); a missing
coarse grant fails with PERMISSION_DENIED and the message "Location
permission denied by user"; a platform exception fails with UNKNOWN carrying
the platform message. -/
theorem c5_permission_gate (g : GrantMap) (msg : String) :
    (requestLocationPermission (.resolved g) = Except.ok ()
      ↔ g.coarseStatus = "granted")
    ∧ (g.coarseStatus ≠ "granted" →
        requestLocationPermission (.resolved g)
          = Except.error { message := "Location permission denied by user",
                           code := errorCodes.PERMISSION_DENIED })
    ∧ (requestLocationPermission (.rejected msg)
        = Except.error { message := msg, code := errorCodes.UNKNOWN }) := by
  refine ⟨?_, ?_, rfl⟩
  · by_cases h : g.coarseStatus = "granted"
    · simp [requestLocationPermission, h]
    · simp [requestLocationPermission, h]
  · intro h
    simp [requestLocationPermission, h]
    rfl

/-- Witness for C5: coarse granted with fine denied succeeds; coarse denied
fails with the documented code and message; a platform exception maps to
UNKNOWN with the platform message. -/
theorem c5_permission_gate_witness :
    requestLocationPermission
        (.resolved { fineStatus := "denied", coarseStatus := "granted" })
      = Except.ok ()
    ∧ requestLocationPermission
        (.resolved { fineStatus := "granted", coarseStatus := "denied" })
      = Except.error { message := "Location permission denied by user",
                       code := errorCodes.PERMISSION_DENIED }
    ∧ requestLocationPermission (.rejected "boom")
      = Except.error { message := "boom", code := errorCodes.UNKNOWN } :=
  ⟨(c5_permission_gate { fineStatus := "denied", coarseStatus := "granted" } "boom").1.2 rfl,
   (c5_permission_gate { fineStatus := "granted", coarseStatus := "denied" } "boom").2.1
      (by decide),
   (c5_permission_gate { fineStatus := "denied", coarseStatus := "granted" } "boom").2.2⟩

/-- C9: the status derivation reads `position.coords.accuracy`
unconditionally on every truthy position, so it delivers nothing (faults)
exactly when a truthy position lacks `coords`; the falsy input is always
handled. -/
theorem c9_unconditional_coords_read (p : RawPosition) :
    (onUpdateDeliver (some p) = none ↔ p.coords = none)
    ∧ (onUpdateDeliver none).isSome = true := by
  refine ⟨?_, rfl⟩
  match hq : p.coords with
  | none => simp [onUpdateDeliver, hq]
  | some c =>
    simp only [onUpdateDeliver, hq]
    by_cases hacc : c.accuracy > MAX_ACCURACY
    · simp [if_pos hacc]
    · simp [if_neg hacc]

/-- C4 counterexample: the claim says a second `startObserving` on the same
instance always throws, regardless of whether the first call succeeded or
failed.  On a fresh instance a first call that fails at the permission gate
returns normally (delivering the error through `onError`) and leaves the
instance state unchanged — `started` is still false — so the second call on
that same (unchanged) instance also returns normally instead of throwing. -/
theorem c4_counterexample :
    startObserving newGeoLocation permDeniedBoth 0
      = Except.ok (newGeoLocation,
          [Action.callOnError
            { message := "Location permission denied by user",
              code := errorCodes.PERMISSION_DENIED }])
    ∧ startObserving newGeoLocation permGrantedBoth 1
      = Except.ok ({ started := true, watchId := some 1 },
          [Action.callOnLocation searchingUpdate,
           Action.addGPSListener,
           Action.getInitialPositionCall,
           Action.watchUntilAccurateCall 1]) := by
  constructor <;> rfl

/-- C4 amended: a second `startObserving` throws the double-start
programming error exactly when the first call succeeded (which sets
`started`); after a first call that failed at the permission gate the
instance is unchanged (`started` still false) and a second call does not
throw. -/
theorem c4_amended (st : SessionState) (perm1 perm2 : PermRequestResult)
    (n1 n2 : Nat) (e : PositionError) (hstart : st.started = false) :
    (requestLocationPermission perm1 = Except.ok () →
      ∀ st1 acts, startObserving st perm1 n1 = Except.ok (st1, acts) →
        startObserving st1 perm2 n2
          = Except.error "Called startObserving more than once")
    ∧ (requestLocationPermission perm1 = Except.error e →
        startObserving st perm1 n1 = Except.ok (st, [Action.callOnError e])
        ∧ ∀ msg, startObserving st perm2 n2 ≠ Except.error msg) := by
  constructor
  · intro hperm st1 acts heq
    rw [startObserving, if_neg (by simp [hstart]), hperm] at heq
    simp only [Except.ok.injEq, Prod.mk.injEq] at heq
    rw [startObserving, if_pos (by rw [← heq.1])]
  · intro hperm
    constructor
    · rw [startObserving, if_neg (by simp [hstart]), hperm]
    · intro msg hcontra
      rw [startObserving, if_neg (by simp [hstart])] at hcontra
      cases hperm2 : requestLocationPermission perm2 <;>
        simp [hperm2] at hcontra

/-- Witness for C4 amended: on a fresh instance, a granted first call makes
the second call throw, and a denied first call leaves the second call
non-throwing. -/
theorem c4_amended_witness :
    startObserving { started := true, watchId := some 0 } permGrantedBoth 1
      = Except.error "Called startObserving more than once"
    ∧ startObserving newGeoLocation permDeniedBoth 0
        = Except.ok (newGeoLocation,
            [Action.callOnError
              { message := "Location permission denied by user",
                code := errorCodes.PERMISSION_DENIED }]) := by
  have h := c4_amended newGeoLocation permGrantedBoth permGrantedBoth 0 1
    { message := "Location permission denied by user",
      code := errorCodes.PERMISSION_DENIED } rfl
  have h2 := c4_amended newGeoLocation permDeniedBoth permGrantedBoth 0 1
    { message := "Location permission denied by user",
      code := errorCodes.PERMISSION_DENIED } rfl
  exact ⟨h.1 rfl { started := true, watchId := some 0 }
      [Action.callOnLocation searchingUpdate, Action.addGPSListener,
       Action.getInitialPositionCall, Action.watchUntilAccurateCall 0] rfl,
    (h2.2 rfl).1⟩

/-- C6 counterexample: the claim says a gate failure means the Session never
transitions to RUNNING and `onUpdate` is never invoked for that Session.
But a gate-failed `startObserving` leaves `started` false, so a retried
`startObserving` on the very same instance succeeds: it delivers the
SEARCHING update through `onUpdate` and leaves that Session started
(RUNNING). -/
theorem c6_counterexample :
    (step (runEvents initSys [Event.callStart permDeniedBoth])
        (Event.callStart permGrantedBoth)).2
      = [CallbackOut.onLocationCall searchingUpdate]
    ∧ (step (runEvents initSys [Event.callStart permDeniedBoth])
        (Event.callStart permGrantedBoth)).1.session.started = true := by
  decide

/-- C6 amended: when the permission gate fails, that `startObserving` call
returns normally (the error is not thrown past the start call) with exactly
one `onError` invocation carrying the gate error, no `onLocation`
invocation, and the instance state untouched — `started` remains false, so
that call never reached RUNNING; at the system level the failed call
registers no subscription, listener or pending poll (only the platform id
counter moves), so nothing stemming from the failed call can ever deliver
later.  A later `startObserving` on the same unchanged instance may still
succeed and run. -/
theorem c6_permission_failure_terminal (st : SessionState)
    (perm : PermRequestResult) (n : Nat) (e : PositionError) (s : SysState)
    (hstart : st.started = false)
    (hperm : requestLocationPermission perm = Except.error e) :
    startObserving st perm n = Except.ok (st, [Action.callOnError e])
    ∧ (s.session.started = false →
        step s (Event.callStart perm)
          = ({ s with nextId := s.nextId + 1 },
             [CallbackOut.onErrorCall e])) := by
  constructor
  · rw [startObserving, if_neg (by simp [hstart]), hperm]
  · intro hs
    rw [step, startObserving, if_neg (by simp [hs]), hperm]
    rfl

/-- Witness for C6 amended at a fresh instance, a fresh system, and a denied
permission request. -/
theorem c6_permission_failure_terminal_witness :
    startObserving newGeoLocation permDeniedBoth 0
      = Except.ok (newGeoLocation,
          [Action.callOnError
            { message := "Location permission denied by user",
              code := errorCodes.PERMISSION_DENIED }])
    ∧ step initSys (Event.callStart permDeniedBoth)
      = ({ initSys with nextId := 1 },
         [CallbackOut.onErrorCall
           { message := "Location permission denied by user",
             code := errorCodes.PERMISSION_DENIED }]) :=
  have h := c6_permission_failure_terminal newGeoLocation permDeniedBoth 0
    { message := "Location permission denied by user",
      code := errorCodes.PERMISSION_DENIED } initSys rfl rfl
  ⟨h.1, h.2 rfl⟩

/-- C7: when the permission gate succeeds, the effect sequence of
`startObserving` begins with the synthetic SEARCHING delivery (no
coordinates, status SEARCHING) before the listener, the initial poll and the
watch subscription are even created; at the system level the start call
itself delivers exactly that one update, so the first update a caller ever
receives is the synthetic SEARCHING one. -/
theorem c7_first_update_searching (st : SessionState)
    (perm : PermRequestResult) (n : Nat) (s : SysState)
    (hstart : st.started = false)
    (hperm : requestLocationPermission perm = Except.ok ()) :
    startObserving st perm n
      = Except.ok ({ started := true, watchId := some n },
          [Action.callOnLocation searchingUpdate,
           Action.addGPSListener,
           Action.getInitialPositionCall,
           Action.watchUntilAccurateCall n])
    ∧ searchingUpdate = { coords := none, status := statusCodes.SEARCHING }
    ∧ (s.session.started = false →
        (step s (Event.callStart perm)).2
          = [CallbackOut.onLocationCall searchingUpdate]) := by
  refine ⟨?_, rfl, ?_⟩
  · rw [startObserving, if_neg (by simp [hstart]), hperm]
  · intro hs
    rw [step, startObserving, if_neg (by simp [hs]), hperm]
    rfl

/-- Witness for C7 on a fresh instance and system with both scopes
granted. -/
theorem c7_first_update_searching_witness :
    (step initSys (Event.callStart permGrantedBoth)).2
      = [CallbackOut.onLocationCall searchingUpdate] :=
  (c7_first_update_searching newGeoLocation permGrantedBoth 0 initSys rfl rfl).2.2 rfl

/-- C10: `stopObserving` writes no instance field (the returned state is the
argument itself), so a stale `watchId` makes a second stop re-run the
cancellation path with the same stale handle (never the no-op branch), and a
started-then-stopped instance still throws the double-start error on a later
`startObserving`. -/
theorem c10_stop_frame (st : SessionState) (i : Nat)
    (perm : PermRequestResult) (n : Nat) :
    (stopObserving st).1 = st
    ∧ (st.watchId = some i →
        (stopObserving st).2
          = [Action.clearWatchCall i, Action.removeListenerCall]
        ∧ (stopObserving (stopObserving st).1).2
          = [Action.clearWatchCall i, Action.removeListenerCall])
    ∧ (st.started = true →
        startObserving (stopObserving st).1 perm n
          = Except.error "Called startObserving more than once") := by
  refine ⟨?_, ?_, ?_⟩
  · cases h : st.watchId <;> simp [stopObserving, h]
  · intro h
    constructor <;> simp [stopObserving, h]
  · intro h
    have hfst : (stopObserving st).1 = st := by
      cases hw : st.watchId <;> simp [stopObserving, hw]
    rw [hfst, startObserving, if_pos (by rw [h])]

/-- Witness for C10 on a started instance holding watch handle 7. -/
theorem c10_stop_frame_witness :
    (stopObserving { started := true, watchId := some 7 }).1
      = { started := true, watchId := some 7 }
    ∧ (stopObserving { started := true, watchId := some 7 }).2
      = [Action.clearWatchCall 7, Action.removeListenerCall]
    ∧ startObserving (stopObserving { started := true, watchId := some 7 }).1
        permGrantedBoth 0
      = Except.error "Called startObserving more than once" := by
  have h := c10_stop_frame { started := true, watchId := some 7 } 7
    permGrantedBoth 0
  exact ⟨h.1, (h.2.1 rfl).1, h.2.2 rfl⟩

/-! Step equation lemmas: closed forms of `step` in each situation. -/

/-- A started session makes `startObserving` throw; the system state is
untouched. -/
theorem step_callStart_throws (s : SysState) (perm : PermRequestResult)
    (hs : s.session.started = true) :
    step s (Event.callStart perm)
      = (s, [CallbackOut.startThrew "Called startObserving more than once"]) := by
  rw [step, startObserving, if_pos hs]

/-- A failed permission gate delivers the error and leaves everything but
the platform id counter unchanged. -/
theorem step_callStart_error (s : SysState) (perm : PermRequestResult)
    (e : PositionError) (hs : s.session.started = false)
    (hperm : requestLocationPermission perm = Except.error e) :
    step s (Event.callStart perm)
      = ({ s with nextId := s.nextId + 1 }, [CallbackOut.onErrorCall e]) := by
  rw [step, startObserving, if_neg (by simp [hs]), hperm]
  rfl

/-- A successful start delivers the synthetic SEARCHING update, attaches the
listener, fires one initial poll, and registers the escalating watch under a
fresh platform handle recorded in `watchId`. -/
theorem step_callStart_ok (s : SysState) (perm : PermRequestResult)
    (hs : s.session.started = false)
    (hperm : requestLocationPermission perm = Except.ok ()) :
    step s (Event.callStart perm)
      = ({ session := { started := true, watchId := some s.nextId },
           watches := s.watches ++ [(s.nextId, WatchKind.escalating)],
           pendingInitialPolls := s.pendingInitialPolls + 1,
           listenerAttached := true,
           nextId := s.nextId + 1 },
         [CallbackOut.onLocationCall searchingUpdate]) := by
  rw [step, startObserving, if_neg (by simp [hs]), hperm]
  rfl

/-- Stopping with an unassigned `watchId` is a complete no-op. -/
theorem step_callStop_none (s : SysState)
    (hw : s.session.watchId = none) :
    step s Event.callStop = (s, []) := by
  rw [step, stopObserving, hw]
  rfl

/-- Stopping with an assigned `watchId` clears that watch and detaches the
listener; the session fields are untouched and nothing is delivered. -/
theorem step_callStop_some (s : SysState) (i : Nat)
    (hw : s.session.watchId = some i) :
    step s Event.callStop
      = ({ s with
            watches := s.watches.filter (fun w => w.1 != i),
            listenerAttached := false }, []) := by
  rw [step, stopObserving, hw]
  rfl

/-- Stopping never delivers a callback. -/
theorem step_callStop_no_output (s : SysState) :
    (step s Event.callStop).2 = [] := by
  cases hw : s.session.watchId with
  | none => rw [step_callStop_none s hw]
  | some i => rw [step_callStop_some s i hw]

/-- The escalating callback cannot fire once its subscription is gone. -/
theorem step_escalateFix_dead (s : SysState) (c : Coords)
    (hg : s.hasEscalating = false) :
    step s (Event.escalateFix c) = (s, []) := by
  rw [step, if_neg (by simp [hg])]

/-- An inaccurate fix on the escalating watch is delivered as LOW_ACCURACY
and changes no subscription. -/
theorem step_escalateFix_stay (s : SysState) (c : Coords)
    (hg : s.hasEscalating = true) (hacc : MAX_ACCURACY < c.accuracy) :
    step s (Event.escalateFix c)
      = ({ s with nextId := s.nextId + 1 },
         [CallbackOut.onLocationCall
           { coords := some c, status := statusCodes.LOW_ACCURACY }]) := by
  rw [step, if_pos hg, watchUntilAccurateCallback, if_neg (not_le.2 hacc)]
  rw [deliverFix, if_pos hacc]
  rfl

/-- An accurate fix on the escalating watch clears it, registers the
movement-gated watch under a fresh handle stored in `watchId`, and delivers
the fix as HIGH_ACCURACY. -/
theorem step_escalateFix_switch (s : SysState) (c : Coords) (i : Nat)
    (hw : s.watches = [(i, WatchKind.escalating)])
    (hid : s.session.watchId = some i)
    (hacc : c.accuracy ≤ MAX_ACCURACY) :
    step s (Event.escalateFix c)
      = ({ s with
            session := { s.session with watchId := some s.nextId },
            watches := [(s.nextId, WatchKind.movement)],
            nextId := s.nextId + 1 },
         [CallbackOut.onLocationCall
           { coords := some c, status := statusCodes.HIGH_ACCURACY }]) := by
  have hg : s.hasEscalating = true := by
    rw [SysState.hasEscalating, hw]
    rfl
  rw [step, if_pos hg, watchUntilAccurateCallback, if_pos hacc, hid]
  rw [deliverFix, if_neg (not_lt.2 hacc)]
  show ({ s with
      session := { s.session with watchId := some s.nextId },
      watches := (s.watches.filter (fun w : Nat × WatchKind => w.1 != i))
        ++ [(s.nextId, WatchKind.movement)],
      nextId := s.nextId + 1 },
    [CallbackOut.onLocationCall
      { coords := some c, status := statusCodes.HIGH_ACCURACY }]) = _
  rw [hw]
  simp

/-- A GPS-state signal is invisible once the listener is detached. -/
theorem step_gpsSignal_detached (s : SysState) (code : Nat)
    (hl : s.listenerAttached = false) :
    step s (Event.gpsSignal code) = (s, []) := by
  rw [step, if_neg (by simp [hl])]

/-- An AUTHORIZED signal with the listener attached fires one immediate
low-accuracy poll and re-emits the SEARCHING update; nothing else changes. -/
theorem step_gpsSignal_authorized (s : SysState)
    (hl : s.listenerAttached = true) :
    step s (Event.gpsSignal GPSState.AUTHORIZED)
      = ({ s with pendingInitialPolls := s.pendingInitialPolls + 1 },
         [CallbackOut.onLocationCall searchingUpdate]) := by
  rw [step, if_pos hl]
  rfl

/-- A RESTRICTED signal with the listener attached delivers a
POSITION_UNAVAILABLE error and changes nothing. -/
theorem step_gpsSignal_restricted (s : SysState)
    (hl : s.listenerAttached = true) :
    step s (Event.gpsSignal GPSState.RESTRICTED)
      = (s, [CallbackOut.onErrorCall
          { message := "Location services are turned off",
            code := errorCodes.POSITION_UNAVAILABLE }]) := by
  rw [step, if_pos hl]
  rfl

/-- Any other signal value with the listener attached causes nothing. -/
theorem step_gpsSignal_other (s : SysState) (code : Nat)
    (hl : s.listenerAttached = true)
    (h1 : code ≠ GPSState.AUTHORIZED) (h2 : code ≠ GPSState.RESTRICTED) :
    step s (Event.gpsSignal code) = (s, []) := by
  rw [step, if_pos hl]
  simp [gpsStateListener, h1, h2, applyActions]

/-! Invariant preservation. -/

/-- Running a cons of events first steps the head event. -/
theorem runEvents_cons (s : SysState) (e : Event) (evts : List Event) :
    runEvents s (e :: evts) = runEvents (step s e).1 evts := rfl

/-- Any property preserved by single steps is preserved by any event
list. -/
theorem invariant_runEvents {P : SysState → Prop}
    (hstep : ∀ s e, P s → P (step s e).1) :
    ∀ (evts : List Event) (s : SysState), P s → P (runEvents s evts)
  | [], _, h => h
  | e :: evts, s, h =>
    invariant_runEvents hstep evts (step s e).1 (hstep s e h)

/-- A Bool that is not true is false. -/
theorem bool_false_of_not_true {b : Bool} (h : ¬b = true) : b = false := by
  cases b
  · rfl
  · exact absurd rfl h

/-- The invariant holds in the initial system state. -/
theorem inv_init : Inv initSys := by
  refine ⟨Or.inl rfl, ?_, ?_⟩
  · intro h
    exact Bool.noConfusion h
  · intro h
    exact Bool.noConfusion h

/-- One system step preserves the reachability invariant. -/
theorem inv_step (s : SysState) (e : Event) (h : Inv s) : Inv (step s e).1 := by
  obtain ⟨hw, hid, hl⟩ := h
  cases e with
  | callStart perm =>
    by_cases hs : s.session.started = true
    · rw [step_callStart_throws s perm hs]
      exact ⟨hw, hid, hl⟩
    · have hs' : s.session.started = false := bool_false_of_not_true hs
      cases hperm : requestLocationPermission perm with
      | error err =>
        rw [step_callStart_error s perm err hs' hperm]
        exact ⟨hw, hid, hl⟩
      | ok u =>
        have hwempty : s.watches = [] := by
          rcases hw with h0 | ⟨i, hwi, hidi, hst⟩ | ⟨i, hwi, hidi, hst⟩
          · exact h0
          · rw [hs'] at hst
            exact Bool.noConfusion hst
          · rw [hs'] at hst
            exact Bool.noConfusion hst
        rw [step_callStart_ok s perm hs' (by rw [hperm])]
        refine ⟨Or.inr (Or.inl ⟨s.nextId, ?_, rfl, rfl⟩), ?_, ?_⟩
        · rw [hwempty]
          rfl
        · intro _
          simp
        · intro _
          rfl
  | escalateFix c =>
    by_cases hg : s.hasEscalating = true
    · rcases hw with h0 | ⟨i, hwi, hidi, hst⟩ | ⟨i, hwi, hidi, hst⟩
      · rw [SysState.hasEscalating, h0] at hg
        exact Bool.noConfusion hg
      · by_cases hacc : c.accuracy ≤ MAX_ACCURACY
        · rw [step_escalateFix_switch s c i hwi hidi hacc]
          refine ⟨Or.inr (Or.inr ⟨s.nextId, rfl, rfl, hst⟩), ?_, ?_⟩
          · intro _
            simp
          · intro _
            exact hst
        · rw [step_escalateFix_stay s c hg (not_le.1 hacc)]
          exact ⟨Or.inr (Or.inl ⟨i, hwi, hidi, hst⟩), hid, hl⟩
      · rw [SysState.hasEscalating, hwi] at hg
        exact Bool.noConfusion hg
    · rw [step_escalateFix_dead s c (bool_false_of_not_true hg)]
      exact ⟨hw, hid, hl⟩
  | movementFix c =>
    rw [step]
    by_cases hm : s.hasMovement = true
    · rw [if_pos hm]
      exact ⟨hw, hid, hl⟩
    · rw [if_neg hm]
      exact ⟨hw, hid, hl⟩
  | initialPollFix p =>
    rw [step]
    by_cases hp : s.pendingInitialPolls > 0
    · rw [if_pos hp]
      rcases onUpdateDeliver p with - | u <;> exact ⟨hw, hid, hl⟩
    · rw [if_neg hp]
      exact ⟨hw, hid, hl⟩
  | initialPollFailure err =>
    rw [step]
    by_cases hp : s.pendingInitialPolls > 0
    · rw [if_pos hp]
      exact ⟨hw, hid, hl⟩
    · rw [if_neg hp]
      exact ⟨hw, hid, hl⟩
  | watchFailure err =>
    rw [step]
    by_cases hp : s.watches.isEmpty = true
    · rw [if_pos hp]
      exact ⟨hw, hid, hl⟩
    · rw [if_neg hp]
      exact ⟨hw, hid, hl⟩
  | gpsSignal code =>
    by_cases hla : s.listenerAttached = true
    · by_cases h1 : code = GPSState.AUTHORIZED
      · subst h1
        rw [step_gpsSignal_authorized s hla]
        exact ⟨hw, hid, hl⟩
      · by_cases h2 : code = GPSState.RESTRICTED
        · subst h2
          rw [step_gpsSignal_restricted s hla]
          exact ⟨hw, hid, hl⟩
        · rw [step_gpsSignal_other s code hla h1 h2]
          exact ⟨hw, hid, hl⟩
    · rw [step_gpsSignal_detached s code (bool_false_of_not_true hla)]
      exact ⟨hw, hid, hl⟩
  | callStop =>
    cases hwid : s.session.watchId with
    | none =>
      rw [step_callStop_none s hwid]
      exact ⟨hw, hid, hl⟩
    | some i =>
      rw [step_callStop_some s i hwid]
      refine ⟨?_, hid, ?_⟩
      · rcases hw with h0 | ⟨j, hwj, hidj, hst⟩ | ⟨j, hwj, hidj, hst⟩
        · left
          rw [h0]
          rfl
        · left
          rw [hwid] at hidj
          injection hidj with hij
          subst hij
          rw [hwj]
          simp
        · left
          rw [hwid] at hidj
          injection hidj with hij
          subst hij
          rw [hwj]
          simp
      · intro hla
        exact Bool.noConfusion hla

/-- One system step preserves steady state: once the escalating watch is
gone and the session started, no event brings the aggressive mode back. -/
theorem steady_step (s : SysState) (e : Event) (h : Steady s) :
    Steady (step s e).1 := by
  obtain ⟨hst, hesc⟩ := h
  cases e with
  | callStart perm =>
    rw [step_callStart_throws s perm hst]
    exact ⟨hst, hesc⟩
  | escalateFix c =>
    rw [step_escalateFix_dead s c hesc]
    exact ⟨hst, hesc⟩
  | movementFix c =>
    rw [step]
    by_cases hm : s.hasMovement = true
    · rw [if_pos hm]
      exact ⟨hst, hesc⟩
    · rw [if_neg hm]
      exact ⟨hst, hesc⟩
  | initialPollFix p =>
    rw [step]
    by_cases hp : s.pendingInitialPolls > 0
    · rw [if_pos hp]
      rcases onUpdateDeliver p with - | u <;> exact ⟨hst, hesc⟩
    · rw [if_neg hp]
      exact ⟨hst, hesc⟩
  | initialPollFailure err =>
    rw [step]
    by_cases hp : s.pendingInitialPolls > 0
    · rw [if_pos hp]
      exact ⟨hst, hesc⟩
    · rw [if_neg hp]
      exact ⟨hst, hesc⟩
  | watchFailure err =>
    rw [step]
    by_cases hp : s.watches.isEmpty = true
    · rw [if_pos hp]
      exact ⟨hst, hesc⟩
    · rw [if_neg hp]
      exact ⟨hst, hesc⟩
  | gpsSignal code =>
    by_cases hla : s.listenerAttached = true
    · by_cases h1 : code = GPSState.AUTHORIZED
      · subst h1
        rw [step_gpsSignal_authorized s hla]
        exact ⟨hst, hesc⟩
      · by_cases h2 : code = GPSState.RESTRICTED
        · subst h2
          rw [step_gpsSignal_restricted s hla]
          exact ⟨hst, hesc⟩
        · rw [step_gpsSignal_other s code hla h1 h2]
          exact ⟨hst, hesc⟩
    · rw [step_gpsSignal_detached s code (bool_false_of_not_true hla)]
      exact ⟨hst, hesc⟩
  | callStop =>
    cases hwid : s.session.watchId with
    | none =>
      rw [step_callStop_none s hwid]
      exact ⟨hst, hesc⟩
    | some i =>
      rw [step_callStop_some s i hwid]
      refine ⟨hst, ?_⟩
      show (s.watches.filter (fun w : Nat × WatchKind => w.1 != i)).any
        (fun w => decide (w.2 = WatchKind.escalating)) = false
      rw [SysState.hasEscalating] at hesc
      rw [List.any_eq_false] at hesc ⊢
      intro a ha
      exact hesc a (List.mem_of_mem_filter ha)

/-- One system step preserves the post-stop quiescence of a started
session. -/
theorem quiesced_step (s : SysState) (e : Event) (h : Quiesced s) :
    Quiesced (step s e).1 := by
  obtain ⟨hst, hwe, hla⟩ := h
  cases e with
  | callStart perm =>
    rw [step_callStart_throws s perm hst]
    exact ⟨hst, hwe, hla⟩
  | escalateFix c =>
    rw [step_escalateFix_dead s c (by rw [SysState.hasEscalating, hwe]; rfl)]
    exact ⟨hst, hwe, hla⟩
  | movementFix c =>
    rw [step, if_neg (by rw [SysState.hasMovement, hwe]; simp)]
    exact ⟨hst, hwe, hla⟩
  | initialPollFix p =>
    rw [step]
    by_cases hp : s.pendingInitialPolls > 0
    · rw [if_pos hp]
      rcases onUpdateDeliver p with - | u <;> exact ⟨hst, hwe, hla⟩
    · rw [if_neg hp]
      exact ⟨hst, hwe, hla⟩
  | initialPollFailure err =>
    rw [step]
    by_cases hp : s.pendingInitialPolls > 0
    · rw [if_pos hp]
      exact ⟨hst, hwe, hla⟩
    · rw [if_neg hp]
      exact ⟨hst, hwe, hla⟩
  | watchFailure err =>
    rw [step, if_pos (by rw [hwe]; rfl)]
    exact ⟨hst, hwe, hla⟩
  | gpsSignal code =>
    rw [step_gpsSignal_detached s code hla]
    exact ⟨hst, hwe, hla⟩
  | callStop =>
    cases hwid : s.session.watchId with
    | none =>
      rw [step_callStop_none s hwid]
      exact ⟨hst, hwe, hla⟩
    | some i =>
      rw [step_callStop_some s i hwid]
      refine ⟨hst, ?_, rfl⟩
      rw [hwe]
      rfl

/-- In a quiesced system no event other than a pending one-shot poll
completion ever reaches `onLocation` or `onError` again. -/
theorem quiesced_no_delivery (s : SysState) (e : Event) (h : Quiesced s)
    (he : isInitialPollEvent e = false) :
    ((step s e).2).filter isDelivery = [] := by
  obtain ⟨hst, hwe, hla⟩ := h
  cases e with
  | callStart perm =>
    rw [step_callStart_throws s perm hst]
    rfl
  | escalateFix c =>
    rw [step_escalateFix_dead s c (by rw [SysState.hasEscalating, hwe]; rfl)]
    rfl
  | movementFix c =>
    rw [step, if_neg (by rw [SysState.hasMovement, hwe]; simp)]
    rfl
  | initialPollFix p => exact Bool.noConfusion he
  | initialPollFailure err => exact Bool.noConfusion he
  | watchFailure err =>
    rw [step, if_pos (by rw [hwe]; rfl)]
    rfl
  | gpsSignal code =>
    rw [step_gpsSignal_detached s code hla]
    rfl
  | callStop =>
    rw [step_callStop_no_output]
    rfl

/-- A second `stopObserving` leaves the system exactly where the first one
put it and delivers nothing. -/
theorem step_callStop_idem (s : SysState) :
    step (step s Event.callStop).1 Event.callStop
      = ((step s Event.callStop).1, []) := by
  cases hwid : s.session.watchId with
  | none =>
    rw [step_callStop_none s hwid, step_callStop_none s hwid]
  | some i =>
    rw [step_callStop_some s i hwid]
    show step ({ s with
        watches := s.watches.filter (fun w : Nat × WatchKind => w.1 != i),
        listenerAttached := false }) Event.callStop
      = ({ s with
        watches := s.watches.filter (fun w : Nat × WatchKind => w.1 != i),
        listenerAttached := false }, [])
    rw [step_callStop_some ({ s with
        watches := s.watches.filter (fun w : Nat × WatchKind => w.1 != i),
        listenerAttached := false }) i hwid]
    have hff : (s.watches.filter (fun w : Nat × WatchKind => w.1 != i)).filter
        (fun w : Nat × WatchKind => w.1 != i)
        = s.watches.filter (fun w : Nat × WatchKind => w.1 != i) := by
      rw [List.filter_filter]
      simp
    show ({ s with
        watches := (s.watches.filter (fun w : Nat × WatchKind => w.1 != i)).filter
          (fun w : Nat × WatchKind => w.1 != i),
        listenerAttached := false }, ([] : List CallbackOut))
      = ({ s with
        watches := s.watches.filter (fun w : Nat × WatchKind => w.1 != i),
        listenerAttached := false }, [])
    rw [hff]

/-- C2: in every reachable system state at most one polling subscription is
live; while the escalating watch is live, a fix at or below the threshold
switches to the movement-gated watch (escalating gone, movement live, still
exactly one subscription) and is delivered as HIGH_ACCURACY; once the
movement-gated watch is live, no sequence of further events ever brings the
escalating watch back; and a low-accuracy fix on the movement-gated feed is
delivered tagged LOW_ACCURACY with the whole system state unchanged — no new
subscription, no re-escalation. -/
theorem c2_single_subscription (evts : List Event) (c : Coords) :
    ((runEvents initSys evts).watches.length ≤ 1)
    ∧ ((runEvents initSys evts).hasEscalating = true →
        c.accuracy ≤ MAX_ACCURACY →
        (step (runEvents initSys evts) (Event.escalateFix c)).1.hasEscalating
            = false
        ∧ (step (runEvents initSys evts) (Event.escalateFix c)).1.hasMovement
            = true
        ∧ (step (runEvents initSys evts) (Event.escalateFix c)).1.watches.length
            = 1
        ∧ (step (runEvents initSys evts) (Event.escalateFix c)).2
            = [CallbackOut.onLocationCall
                { coords := some c, status := statusCodes.HIGH_ACCURACY }])
    ∧ ((runEvents initSys evts).hasMovement = true →
        ∀ evts2, (runEvents (runEvents initSys evts) evts2).hasEscalating
          = false)
    ∧ ((runEvents initSys evts).hasMovement = true →
        MAX_ACCURACY < c.accuracy →
        step (runEvents initSys evts) (Event.movementFix c)
          = (runEvents initSys evts,
             [CallbackOut.onLocationCall
               { coords := some c, status := statusCodes.LOW_ACCURACY }])) := by
  have hInv : Inv (runEvents initSys evts) :=
    invariant_runEvents inv_step evts initSys inv_init
  obtain ⟨hw, hid, hl⟩ := hInv
  refine ⟨?_, ?_, ?_, ?_⟩
  · rcases hw with h0 | ⟨i, hwi, -, -⟩ | ⟨i, hwi, -, -⟩
    · rw [h0]
      simp
    · rw [hwi]
      simp
    · rw [hwi]
      simp
  · intro hg hacc
    rcases hw with h0 | ⟨i, hwi, hidi, hst⟩ | ⟨i, hwi, hidi, hst⟩
    · rw [SysState.hasEscalating, h0] at hg
      exact Bool.noConfusion hg
    · rw [step_escalateFix_switch (runEvents initSys evts) c i hwi hidi hacc]
      exact ⟨rfl, rfl, rfl, rfl⟩
    · rw [SysState.hasEscalating, hwi] at hg
      exact Bool.noConfusion hg
  · intro hm evts2
    rcases hw with h0 | ⟨i, hwi, -, -⟩ | ⟨i, hwi, -, hst⟩
    · rw [SysState.hasMovement, h0] at hm
      exact Bool.noConfusion hm
    · rw [SysState.hasMovement, hwi] at hm
      exact Bool.noConfusion hm
    · have hsteady : Steady (runEvents initSys evts) := by
        refine ⟨hst, ?_⟩
        rw [SysState.hasEscalating, hwi]
        rfl
      exact (invariant_runEvents steady_step evts2 _ hsteady).2
  · intro hm hacc
    rw [step, if_pos hm, deliverFix, if_pos hacc]

/-- Witness for C2: a granted start makes the escalating watch live; an
accurate fix (5 m) switches it to the movement-gated watch; from there a
further accurate escalating fix event brings no escalating watch back, and a
50 m fix on the movement-gated feed is delivered LOW_ACCURACY with the state
unchanged. -/
theorem c2_single_subscription_witness :
    ((step (runEvents initSys [Event.callStart permGrantedBoth])
        (Event.escalateFix
          { latitude := 0, longitude := 0, accuracy := 5 })).1.hasMovement
      = true)
    ∧ ((runEvents (runEvents initSys
          [Event.callStart permGrantedBoth,
           Event.escalateFix { latitude := 0, longitude := 0, accuracy := 5 }])
          [Event.escalateFix
            { latitude := 0, longitude := 0, accuracy := 3 }]).hasEscalating
      = false)
    ∧ (step (runEvents initSys
          [Event.callStart permGrantedBoth,
           Event.escalateFix { latitude := 0, longitude := 0, accuracy := 5 }])
        (Event.movementFix { latitude := 0, longitude := 0, accuracy := 50 })
      = (runEvents initSys
          [Event.callStart permGrantedBoth,
           Event.escalateFix { latitude := 0, longitude := 0, accuracy := 5 }],
         [CallbackOut.onLocationCall
           { coords := some { latitude := 0, longitude := 0, accuracy := 50 },
             status := statusCodes.LOW_ACCURACY }])) := by
  refine ⟨?_, ?_, ?_⟩
  · exact ((c2_single_subscription [Event.callStart permGrantedBoth]
      { latitude := 0, longitude := 0, accuracy := 5 }).2.1
      (by decide) (by decide)).2.1
  · exact (c2_single_subscription
      [Event.callStart permGrantedBoth,
       Event.escalateFix { latitude := 0, longitude := 0, accuracy := 5 }]
      { latitude := 0, longitude := 0, accuracy := 5 }).2.2.1 (by decide)
      [Event.escalateFix { latitude := 0, longitude := 0, accuracy := 3 }]
  · exact (c2_single_subscription
      [Event.callStart permGrantedBoth,
       Event.escalateFix { latitude := 0, longitude := 0, accuracy := 5 }]
      { latitude := 0, longitude := 0, accuracy := 50 }).2.2.2
      (by decide) (by decide)

/-- C3 counterexample: the claim says that after `stopObserving` no further
`onUpdate` or `onError` invocation occurs, even from a platform callback
pending at the time of the call.  But `stopObserving` only clears the watch
and the GPS-state listener; a `getCurrentPosition` callback from the initial
low-accuracy poll is not cancellable, and here one is still pending when the
caller stops: when it resolves after the stop, `onUpdate` runs and `onLocation`
is invoked with a LOW_ACCURACY update. -/
theorem c3_counterexample :
    (step (runEvents initSys [Event.callStart permGrantedBoth, Event.callStop])
        (Event.initialPollFix
          (some { coords := some { latitude := 0, longitude := 0, accuracy := 50 } }))).2
      = [CallbackOut.onLocationCall
          { coords := some { latitude := 0, longitude := 0, accuracy := 50 },
            status := statusCodes.LOW_ACCURACY }] := by
  decide

/-- C3 amended: `stopObserving` delivers nothing itself, is a no-op when no
watch handle was ever assigned (in particular when `startObserving` never
completed), is idempotent — a repeated stop leaves the system exactly where
the first stop put it — and, for a started session, after a stop no event
other than the completion of an already-pending one-shot initial poll can
ever reach `onUpdate` or `onError` again. -/
theorem c3_amended (evts0 : List Event) :
    ((step (runEvents initSys evts0) Event.callStop).2 = [])
    ∧ ((runEvents initSys evts0).session.watchId = none →
        step (runEvents initSys evts0) Event.callStop
          = (runEvents initSys evts0, []))
    ∧ (step (step (runEvents initSys evts0) Event.callStop).1 Event.callStop
        = ((step (runEvents initSys evts0) Event.callStop).1, []))
    ∧ ((runEvents initSys evts0).session.started = true →
        ∀ (evts : List Event) (e : Event), isInitialPollEvent e = false →
          ((step (runEvents (step (runEvents initSys evts0) Event.callStop).1
              evts) e).2).filter isDelivery = []) := by
  refine ⟨step_callStop_no_output _, step_callStop_none _,
    step_callStop_idem _, ?_⟩
  intro hstarted evts e he
  have hInv : Inv (runEvents initSys evts0) :=
    invariant_runEvents inv_step evts0 initSys inv_init
  obtain ⟨hw, hid, -⟩ := hInv
  have hq : Quiesced (step (runEvents initSys evts0) Event.callStop).1 := by
    cases hwid : (runEvents initSys evts0).session.watchId with
    | none => exact absurd hwid (hid hstarted)
    | some i =>
      rw [step_callStop_some _ i hwid]
      refine ⟨hstarted, ?_, rfl⟩
      show (runEvents initSys evts0).watches.filter
        (fun w : Nat × WatchKind => w.1 != i) = []
      rcases hw with h0 | ⟨j, hwj, hidj, -⟩ | ⟨j, hwj, hidj, -⟩
      · rw [h0]
        rfl
      · rw [hwid] at hidj
        injection hidj with hij
        subst hij
        rw [hwj]
        simp
      · rw [hwid] at hidj
        injection hidj with hij
        subst hij
        rw [hwj]
        simp
  exact quiesced_no_delivery _ e
    (invariant_runEvents quiesced_step evts _ hq) he

/-- Witness for C3 amended: after a granted start and a stop, a RESTRICTED
GPS-state signal — which before the stop would have produced an `onError`
delivery — delivers nothing. -/
theorem c3_amended_witness :
    ((runEvents initSys [Event.callStart permGrantedBoth]).session.started
      = true)
    ∧ ((step (runEvents
          (step (runEvents initSys [Event.callStart permGrantedBoth])
            Event.callStop).1 [])
        (Event.gpsSignal GPSState.RESTRICTED)).2).filter isDelivery = [] :=
  ⟨by decide,
   (c3_amended [Event.callStart permGrantedBoth]).2.2.2 (by decide) []
     (Event.gpsSignal GPSState.RESTRICTED) rfl⟩

/-- C8: while the GPS-state listener is attached, an AUTHORIZED signal fires
exactly one immediate low-accuracy poll (one more pending one-shot) and
re-emits the SEARCHING update; a RESTRICTED signal delivers a
POSITION_UNAVAILABLE error through `onError` with the system state fully
unchanged (the session is not stopped); any other signal value delivers
nothing and changes nothing. -/
theorem c8_service_signal (s : SysState) (code : Nat)
    (hl : s.listenerAttached = true) :
    (step s (Event.gpsSignal GPSState.AUTHORIZED)
      = ({ s with pendingInitialPolls := s.pendingInitialPolls + 1 },
         [CallbackOut.onLocationCall searchingUpdate]))
    ∧ (step s (Event.gpsSignal GPSState.RESTRICTED)
      = (s, [CallbackOut.onErrorCall
          { message := "Location services are turned off",
            code := errorCodes.POSITION_UNAVAILABLE }]))
    ∧ (code ≠ GPSState.AUTHORIZED → code ≠ GPSState.RESTRICTED →
        step s (Event.gpsSignal code) = (s, [])) :=
  ⟨step_gpsSignal_authorized s hl, step_gpsSignal_restricted s hl,
   step_gpsSignal_other s code hl⟩

/-- Witness for C8 on the state reached by a granted start: a RESTRICTED
signal delivers the POSITION_UNAVAILABLE error and leaves the state (still
started, watch still live) unchanged, and a NOT_DETERMINED signal causes
nothing. -/
theorem c8_service_signal_witness :
    (step (runEvents initSys [Event.callStart permGrantedBoth])
        (Event.gpsSignal GPSState.RESTRICTED)
      = (runEvents initSys [Event.callStart permGrantedBoth],
         [CallbackOut.onErrorCall
           { message := "Location services are turned off",
             code := errorCodes.POSITION_UNAVAILABLE }]))
    ∧ (step (runEvents initSys [Event.callStart permGrantedBoth])
        (Event.gpsSignal GPSState.NOT_DETERMINED)
      = (runEvents initSys [Event.callStart permGrantedBoth], [])) :=
  ⟨(c8_service_signal (runEvents initSys [Event.callStart permGrantedBoth])
      GPSState.NOT_DETERMINED (by decide)).2.1,
   (c8_service_signal (runEvents initSys [Event.callStart permGrantedBoth])
      GPSState.NOT_DETERMINED (by decide)).2.2 (by decide) (by decide)⟩

end Geolocation
